import Mathlib

/-!
A shallow embedding of the desk-cli Context Switch Engine and Sync Engine.

Sources embedded (paths relative to the repository root):
- `src/cli/src/git/types.rs`: `RepoStatus`, `StashOptions`, `SwitchOptions`.
- `src/cli/src/git/operations.rs`: `Git2Operations::status` (counter
  computation from per-entry status flags) and `Git2Operations::stash_apply`
  (lookup of a stash by message substring).
- `src/cli/src/workspace/types.rs`: `Workspace`, `WorkspaceMetadata`.
- `src/cli/src/workspace/storage.rs`: `FileWorkspaceStore` and its
  `validate_name`, `save`, `load`, `delete`, `exists` operations. The store
  directory is modelled as an association list from file name to the parsed
  record it holds; `serde` JSON serialisation of a well-formed record is
  taken as the identity, so `Corrupted` does not arise inside the model.
- `src/cli/src/cli/commands/workspace.rs`: `save_current_state`,
  `restore_workspace`, `handle_open` (the alias resolution and the
  current-workspace pointer in `DeskState` are outside the scope of the
  claims and are not modelled).
- `src/cli/src/cli/commands/sync.rs`: the per-record bodies of
  `handle_sync_push` and `handle_sync_pull`, `handle_sync_status`,
  `workspace_to_state`, `state_to_workspace`.

Modelling conventions:
- `chrono::DateTime<Utc>` timestamps are opaque `Nat` values; the clock is an
  explicit `now` argument wherever the code calls `Utc::now()`.
- The `i32` remote version is an `Int`; the code only compares versions and
  copies them, so no wrap-around arithmetic occurs on them. The one machine
  cast in scope, `status.total_changes() as u32` in `save_current_state`,
  is modelled with an explicit `% 2 ^ 32`.
- The external git collaborator (libgit2) is an oracle `GitOutcomes` giving
  the results of the git calls a command may make; the commands record the
  calls they actually issue in a `GitEvent` trace, in call order.
-/

/-! ## Git data model (`src/cli/src/git/types.rs`) -/

/-- `GitError` from `src/cli/src/git/error.rs`. -/
inductive GitError where
  | notARepository : GitError
  | dirtyWorkingDirectory : GitError
  | branchNotFound (branch : String) : GitError
  | stashNotFound (name : String) : GitError
  | conflict (msg : String) : GitError
  | git2 (msg : String) : GitError
  | statusFailed (msg : String) : GitError
deriving Repr, DecidableEq

/-- `RepoStatus` from `src/cli/src/git/types.rs`. -/
structure RepoStatus where
  branch : String
  commit_sha : String
  is_dirty : Bool
  staged_count : Nat
  modified_count : Nat
  untracked_count : Nat
deriving Repr, DecidableEq

namespace RepoStatus

/-- `RepoStatus::has_changes`: any of the three counts is positive. -/
def has_changes (s : RepoStatus) : Bool :=
  s.staged_count > 0 || s.modified_count > 0 || s.untracked_count > 0

/-- `RepoStatus::total_changes`: sum of the three counts. -/
def total_changes (s : RepoStatus) : Nat :=
  s.staged_count + s.modified_count + s.untracked_count

end RepoStatus

/-- `StashOptions` from `src/cli/src/git/types.rs`. -/
structure StashOptions where
  message : Option String
  include_untracked : Bool
deriving Repr, DecidableEq

/-- `SwitchOptions` from `src/cli/src/git/types.rs`. -/
structure SwitchOptions where
  create : Bool
  force : Bool
deriving Repr, DecidableEq

/-- One libgit2 status entry of `Git2Operations::status`, reduced to the
eight flags the loop in `src/cli/src/git/operations.rs` inspects. -/
structure StatusEntry where
  index_new : Bool
  index_modified : Bool
  index_deleted : Bool
  index_renamed : Bool
  wt_modified : Bool
  wt_deleted : Bool
  wt_renamed : Bool
  wt_new : Bool
deriving Repr, DecidableEq

namespace StatusEntry

/-- The staged test of the loop in `Git2Operations::status`. -/
def isStaged (e : StatusEntry) : Bool :=
  e.index_new || e.index_modified || e.index_deleted || e.index_renamed

/-- The modified test of the loop in `Git2Operations::status`. -/
def isModified (e : StatusEntry) : Bool :=
  e.wt_modified || e.wt_deleted || e.wt_renamed

/-- The untracked test of the loop in `Git2Operations::status`. -/
def isUntracked (e : StatusEntry) : Bool :=
  e.wt_new

end StatusEntry

namespace Git2Operations

/-- `Git2Operations::status` from `src/cli/src/git/operations.rs`: counts the
entries matching each flag group and sets `is_dirty` from the staged and
modified counters only (untracked files do not make the repository dirty). -/
def status (branch commit_sha : String) (entries : List StatusEntry) : RepoStatus :=
  let staged := (entries.filter StatusEntry.isStaged).length
  let modified := (entries.filter StatusEntry.isModified).length
  let untracked := (entries.filter StatusEntry.isUntracked).length
  { branch := branch
    commit_sha := commit_sha
    is_dirty := staged > 0 || modified > 0
    staged_count := staged
    modified_count := modified
    untracked_count := untracked }

end Git2Operations

/-- Bool-valued substring test on character lists, used to model Rust
`str::contains` for both the `".."` check of `validate_name` and the
`message.contains(name)` match of `Git2Operations::stash_apply`. -/
def containsSub (needle : List Char) : List Char → Bool
  | [] => needle.isEmpty
  | c :: t => needle.isPrefixOf (c :: t) || containsSub needle t

/-- A git call issued by a command, in call order. -/
inductive GitEvent where
  | statusRead : GitEvent
  | stashSave (options : StashOptions) : GitEvent
  | switchBranch (branch : String) (options : SwitchOptions) : GitEvent
  | stashApply (name : String) : GitEvent
deriving Repr, DecidableEq

/-- Oracle for the external git collaborator: the value each git call would
return if issued by the command under study. `stashes` is the message list
of the repository's stash stack, searched by `stash_apply`. -/
structure GitOutcomes where
  statusResult : Except GitError RepoStatus
  stashResult : Except GitError String
  switchResult : Except GitError Unit
  stashes : List String
  applyAtIndex : Except GitError Unit

instance {ε α : Type} [DecidableEq ε] [DecidableEq α] : DecidableEq (Except ε α) := fun a b =>
  match a, b with
  | .error e, .error f => if h : e = f then isTrue (by simp [h]) else isFalse (by simp [h])
  | .error _, .ok _ => isFalse (by simp)
  | .ok _, .error _ => isFalse (by simp)
  | .ok x, .ok y => if h : x = y then isTrue (by simp [h]) else isFalse (by simp [h])

namespace Git2Operations

/-- `Git2Operations::stash_apply` from `src/cli/src/git/operations.rs`:
walk the stash stack, stop at the first entry whose message contains the
requested name as a substring; error with `StashNotFound` when no message
matches, otherwise apply the stash at the found index (outcome given by the
oracle). -/
def stash_apply (g : GitOutcomes) (name : String) : Except GitError Unit :=
  match g.stashes.findIdx? (fun m => containsSub name.toList m.toList) with
  | none => .error (.stashNotFound name)
  | some _ => g.applyAtIndex

end Git2Operations

/-! ## Workspace data model (`src/cli/src/workspace/types.rs`) -/

/-- `WorkspaceMetadata` from `src/cli/src/workspace/types.rs`. The
`open_count` and `last_opened_at` fields are the usage counters mutated by
the command layer (`src/cli/src/cli/commands/workspace.rs`); like the other
metadata fields they default when absent from a stored record. -/
structure WorkspaceMetadata where
  uncommitted_files : Option Nat
  was_dirty : Option Bool
  remote_id : Option String
  remote_version : Option Int
  last_synced_at : Option Nat
  tags : List String
  open_count : Nat
  last_opened_at : Option Nat
deriving Repr, DecidableEq

/-- `WorkspaceMetadata::default()`. -/
def WorkspaceMetadata.default : WorkspaceMetadata :=
  { uncommitted_files := none
    was_dirty := none
    remote_id := none
    remote_version := none
    last_synced_at := none
    tags := []
    open_count := 0
    last_opened_at := none }

/-- `Workspace` from `src/cli/src/workspace/types.rs`. -/
structure Workspace where
  name : String
  repo_path : String
  branch : String
  commit_sha : String
  stash_name : Option String
  created_at : Nat
  updated_at : Nat
  description : Option String
  metadata : WorkspaceMetadata
deriving Repr, DecidableEq

/-- `Workspace::new`: fresh record with both timestamps set to the current
time and default metadata. The clock is the explicit `now` argument. -/
def Workspace.new (name repo_path branch commit_sha : String) (now : Nat) : Workspace :=
  { name := name
    repo_path := repo_path
    branch := branch
    commit_sha := commit_sha
    stash_name := none
    created_at := now
    updated_at := now
    description := none
    metadata := WorkspaceMetadata.default }

/-! ## Workspace storage (`src/cli/src/workspace/storage.rs`) -/

/-- `WorkspaceError` from `src/cli/src/workspace/error.rs`. -/
inductive WorkspaceError where
  | alreadyExists (name : String) : WorkspaceError
  | notFound (name : String) : WorkspaceError
  | invalidName (name : String) (reason : String) : WorkspaceError
  | storage (msg : String) : WorkspaceError
  | corrupted (msg : String) : WorkspaceError
deriving Repr, DecidableEq

/-- The store directory: one entry per file, keyed by workspace name. -/
abbrev Store : Type := List (String × Workspace)

/-- Look up the file named `n` in the directory. -/
def Store.lookupFile (dir : Store) (n : String) : Option Workspace :=
  (dir.find? (fun p => p.1 == n)).map Prod.snd

/-- Overwrite-or-create the file named `n` with content `w`. -/
def Store.writeFile (dir : Store) (n : String) (w : Workspace) : Store :=
  if (dir.find? (fun p => p.1 == n)).isSome then
    dir.map (fun p => if p.1 == n then (n, w) else p)
  else
    dir ++ [(n, w)]

/-- Rust `str::len` is the UTF-8 byte count of the string. -/
def utf8Len (s : String) : Nat :=
  (s.toList.map Char.utf8Size).sum

namespace FileWorkspaceStore

/-- `FileWorkspaceStore::validate_name`: reject the empty name, then names
containing a path separator or `".."`, then names longer than 100 bytes. -/
def validate_name (name : String) : Except WorkspaceError Unit :=
  if name.toList.isEmpty then
    .error (.invalidName name "name cannot be empty")
  else if name.toList.contains '/' || name.toList.contains '\\'
      || containsSub ['.', '.'] name.toList then
    .error (.invalidName name "name cannot contain path separators")
  else if utf8Len name > 100 then
    .error (.invalidName name "name too long (max 100 characters)")
  else
    .ok ()

/-- `FileWorkspaceStore::save`: validate the name, fail with `AlreadyExists`
when the destination file exists and `force` is false, otherwise write the
record to its file. -/
def save (dir : Store) (workspace : Workspace) (force : Bool) :
    Except WorkspaceError Store :=
  match validate_name workspace.name with
  | .error e => .error e
  | .ok _ =>
    if (dir.lookupFile workspace.name).isSome && !force then
      .error (.alreadyExists workspace.name)
    else
      .ok (dir.writeFile workspace.name workspace)

/-- `FileWorkspaceStore::load`: validate the name, return `none` when the
file is absent, otherwise the parsed record. -/
def load (dir : Store) (name : String) : Except WorkspaceError (Option Workspace) :=
  match validate_name name with
  | .error e => .error e
  | .ok _ => .ok (dir.lookupFile name)

/-- `FileWorkspaceStore::delete`: validate the name, report whether a file
was removed. -/
def delete (dir : Store) (name : String) : Except WorkspaceError (Store × Bool) :=
  match validate_name name with
  | .error e => .error e
  | .ok _ =>
    if (dir.lookupFile name).isSome then
      .ok (dir.filter (fun p => p.1 != name), true)
    else
      .ok (dir, false)

/-- `FileWorkspaceStore::exists` (named `existsFile` here because `exists`
is reserved in Lean): validate the name, test file presence. -/
def existsFile (dir : Store) (name : String) : Except WorkspaceError Bool :=
  match validate_name name with
  | .error e => .error e
  | .ok _ => .ok (dir.lookupFile name).isSome

end FileWorkspaceStore

/-! ## Remote API data model (`src/cli/src/client/api.rs`) -/

/-- The sync-relevant variants of `DeskError` from `src/cli/src/error.rs`,
plus wrappers for the workspace and git error types it embeds. -/
inductive DeskError where
  | notAuthenticated : DeskError
  | subscriptionRequired : DeskError
  | unauthorized : DeskError
  | apiUnavailable : DeskError
  | apiError (status : Nat) (message : String) : DeskError
  | syncConflict (message : String) : DeskError
  | workspaceErr (e : WorkspaceError) : DeskError
  | gitError (e : GitError) : DeskError
deriving Repr, DecidableEq

/-- `WorkspaceStateMetadata` from `src/cli/src/client/api.rs`. -/
structure WorkspaceStateMetadata where
  uncommitted_files : Option Nat
  was_dirty : Option Bool
deriving Repr, DecidableEq

/-- `WorkspaceState` from `src/cli/src/client/api.rs`. -/
structure WorkspaceState where
  branch : String
  commit_sha : String
  stash_name : Option String
  repo_path : String
  metadata : WorkspaceStateMetadata
deriving Repr, DecidableEq

/-- `RemoteWorkspace` from `src/cli/src/client/api.rs`. -/
structure RemoteWorkspace where
  id : String
  name : String
  description : Option String
  state : WorkspaceState
  version : Int
  last_synced_at : Option Nat
  created_at : Nat
  updated_at : Nat
deriving Repr, DecidableEq

/-! ## Sync engine (`src/cli/src/cli/commands/sync.rs`) -/

/-- `workspace_to_state` from `src/cli/src/cli/commands/sync.rs`. -/
def workspace_to_state (ws : Workspace) : WorkspaceState :=
  { branch := ws.branch
    commit_sha := ws.commit_sha
    stash_name := ws.stash_name
    repo_path := ws.repo_path
    metadata :=
      { uncommitted_files := ws.metadata.uncommitted_files
        was_dirty := ws.metadata.was_dirty } }

/-- `state_to_workspace` from `src/cli/src/cli/commands/sync.rs`: build a
fresh local record from the remote state. Every field comes from the remote
record or from the `Workspace::new` defaults; nothing is merged from any
previous local record. -/
def state_to_workspace (remote : RemoteWorkspace) (now : Nat) : Workspace :=
  let ws := Workspace.new remote.name remote.state.repo_path remote.state.branch
      remote.state.commit_sha now
  { ws with
    stash_name := remote.state.stash_name
    description := remote.description
    created_at := remote.created_at
    updated_at := remote.updated_at
    metadata := { ws.metadata with
      uncommitted_files := remote.state.metadata.uncommitted_files
      was_dirty := remote.state.metadata.was_dirty
      remote_id := some remote.id
      remote_version := some remote.version
      last_synced_at := remote.last_synced_at } }

/-- Per-record outcome of the push loop, following the counters and
messages of `handle_sync_push`. -/
inductive PushOutcome where
  | pushedNew : PushOutcome
  | pushedUpdated : PushOutcome
  | skippedConflict : PushOutcome
  | failed : PushOutcome
deriving Repr, DecidableEq

/-- An HTTP call issued by the sync engine, with the arguments relevant to
optimistic concurrency. -/
inductive ApiEvent where
  | updateCall (id : String) (version : Int) : ApiEvent
  | createCall (name : String) : ApiEvent
deriving Repr, DecidableEq

/-- The loop body of `handle_sync_push` (`src/cli/src/cli/commands/sync.rs`,
one iteration of the `for mut workspace in workspaces` loop) for the record
`ws`. `remote` is the `remote_by_name` lookup for `ws.name`; `updateResp`
and `createResp` are the server replies the corresponding call would get.
Returns the store after the iteration, the outcome, and the API calls
issued. A failure of the local `store.save` propagates, as the `?` operator
does in the source. -/
def handle_push_record (dir : Store) (ws : Workspace) (remote : Option RemoteWorkspace)
    (force : Bool) (updateResp createResp : Except DeskError RemoteWorkspace) (now : Nat) :
    Except WorkspaceError (Store × PushOutcome × List ApiEvent) :=
  match remote with
  | some r =>
    let local_version := ws.metadata.remote_version.getD 0
    if r.version > local_version && !force then
      .ok (dir, .skippedConflict, [])
    else
      let sent := if force then r.version else local_version
      match updateResp with
      | .ok updated =>
        let ws' := { ws with metadata := { ws.metadata with
          remote_id := some updated.id
          remote_version := some updated.version
          last_synced_at := some now } }
        match FileWorkspaceStore.save dir ws' true with
        | .ok dir' => .ok (dir', .pushedUpdated, [.updateCall r.id sent])
        | .error e => .error e
      | .error _ => .ok (dir, .failed, [.updateCall r.id sent])
  | none =>
    match createResp with
    | .ok created =>
      let ws' := { ws with metadata := { ws.metadata with
        remote_id := some created.id
        remote_version := some created.version
        last_synced_at := some now } }
      match FileWorkspaceStore.save dir ws' true with
      | .ok dir' => .ok (dir', .pushedNew, [.createCall ws.name])
      | .error e => .error e
    | .error _ => .ok (dir, .failed, [.createCall ws.name])

/-- Per-record outcome of the pull loop, following the counters and
messages of `handle_sync_pull`. -/
inductive PullOutcome where
  | pulledNew : PullOutcome
  | pulledUpdated : PullOutcome
  | skippedConflict : PullOutcome
  | failed : PullOutcome
deriving Repr, DecidableEq

/-- The loop body of `handle_sync_pull` (`src/cli/src/cli/commands/sync.rs`,
one iteration of the `for remote in remotes` loop). Loads the matching
local record (a load failure propagates as with `?` in the source), applies
the version pre-check, and on the non-skip path rebuilds the local record
wholesale from the remote state and saves it with `force = true`. -/
def handle_pull_record (dir : Store) (remote : RemoteWorkspace) (force : Bool) (now : Nat) :
    Except WorkspaceError (Store × PullOutcome) :=
  match FileWorkspaceStore.load dir remote.name with
  | .error e => .error e
  | .ok localRec =>
  let skip :=
    match localRec with
    | some local_ws =>
      let local_version := local_ws.metadata.remote_version.getD 0
      if local_version > 0 && local_version < remote.version && !force then
        false
      else if local_version > remote.version && !force then
        true
      else
        false
    | none => false
  if skip then
    .ok (dir, .skippedConflict)
  else
    let workspace := state_to_workspace remote now
    match FileWorkspaceStore.save dir workspace true with
    | .ok dir' => .ok (dir', if localRec.isSome then .pulledUpdated else .pulledNew)
    | .error _ => .ok (dir, .failed)

/-- Classification printed per name by `handle_sync_status`. -/
inductive SyncStatusClass where
  | synced : SyncStatusClass
  | localAhead : SyncStatusClass
  | remoteAhead : SyncStatusClass
  | localOnly : SyncStatusClass
  | remoteOnly : SyncStatusClass
deriving Repr, DecidableEq

/-- The `match (local, remote)` classification of `handle_sync_status`
(`src/cli/src/cli/commands/sync.rs`): for a name present on both sides the
locally known version (`metadata.remote_version` defaulted to 0) is
compared with the remote version; a name present on one side only is
local-only or remote-only; the impossible both-absent case yields nothing. -/
def classify (localRec : Option Workspace) (remote : Option RemoteWorkspace) :
    Option SyncStatusClass :=
  match localRec, remote with
  | some local_ws, some remote_ws =>
    let local_version := local_ws.metadata.remote_version.getD 0
    some (if local_version == remote_ws.version then .synced
          else if local_version > remote_ws.version then .localAhead
          else .remoteAhead)
  | some _, none => some .localOnly
  | none, some _ => some .remoteOnly
  | none, none => none

/-- `handle_sync_status` (`src/cli/src/cli/commands/sync.rs`): a read-only
report pairing each name in the union of local and remote names with its
classification. The source sorts and deduplicates the name list and only
prints lines; it contains no `store.save`, so the store it leaves behind is
the one it was given, returned here unchanged as the first component. The
printed order is abstracted away (only deduplication is kept). -/
def handle_sync_status (locals : List Workspace) (remotes : List RemoteWorkspace) :
    List Workspace × List (String × SyncStatusClass) :=
  let all_names := ((locals.map Workspace.name) ++ (remotes.map RemoteWorkspace.name)).dedup
  let report := all_names.filterMap (fun n =>
    (classify (locals.find? (fun w => w.name == n))
              (remotes.find? (fun r => r.name == n))).map (fun c => (n, c)))
  (locals, report)

/-! ## Context switch orchestrator (`src/cli/src/cli/commands/workspace.rs`) -/

/-- `save_current_state` from `src/cli/src/cli/commands/workspace.rs`: read
the repository status; when the tree has changes, stash them (untracked
included) under the message `"desk: workspace " ++ name` and remember that
message as the stash name; build a fresh `Workspace::new` record from the
captured branch and commit, fill in the dirty-state metadata (the
`as u32` cast of the source is the `% 2 ^ 32`), and save it with the given
`force` flag. Git and store failures propagate as with `?` in the source. -/
def save_current_state (dir : Store) (g : GitOutcomes) (repoPath : String) (now : Nat)
    (name : String) (description : Option String) (force : Bool) :
    List GitEvent × Except DeskError Store :=
  match g.statusResult with
  | .error e => ([GitEvent.statusRead], .error (.gitError e))
  | .ok status =>
    let was_dirty := status.has_changes
    let total_changes := status.total_changes % 2 ^ 32
    let finish := fun (events : List GitEvent) (stash_name : Option String) =>
      let ws0 := Workspace.new name repoPath status.branch status.commit_sha now
      let workspace := { ws0 with
        stash_name := stash_name
        description := description
        metadata := { ws0.metadata with
          was_dirty := some was_dirty
          uncommitted_files := some total_changes } }
      match FileWorkspaceStore.save dir workspace force with
      | .ok dir' => (events, Except.ok dir')
      | .error e => (events, Except.error (DeskError.workspaceErr e))
    if was_dirty then
      let stash_msg := "desk: workspace " ++ name
      let options : StashOptions := { message := some stash_msg, include_untracked := true }
      match g.stashResult with
      | .error e => ([GitEvent.statusRead, GitEvent.stashSave options], .error (.gitError e))
      | .ok _ => finish [GitEvent.statusRead, GitEvent.stashSave options] (some stash_msg)
    else
      finish [GitEvent.statusRead] none

/-- `restore_workspace` from `src/cli/src/cli/commands/workspace.rs`: read
the current repository status; when the current branch differs from the
record's branch, first protect a dirty tree with a stash tagged
`"desk: auto-stash before switch"` (untracked included), then switch to the
record's branch with `create = false, force = false`; finally, when the
record carries a stash name, attempt to apply it and discard the result
(the source tests `is_ok()` and does nothing with it), so a missing or
unapplicable stash never fails the restore. -/
def restore_workspace (g : GitOutcomes) (workspace : Workspace) :
    List GitEvent × Except DeskError Unit :=
  match g.statusResult with
  | .error e => ([GitEvent.statusRead], .error (.gitError e))
  | .ok current_status =>
    let applyPhase := fun (events : List GitEvent) =>
      match workspace.stash_name with
      | some stash_name =>
        let _ := Git2Operations.stash_apply g stash_name
        (events ++ [GitEvent.stashApply stash_name], Except.ok ())
      | none => (events, Except.ok ())
    if current_status.branch != workspace.branch then
      let switchPhase := fun (events : List GitEvent) =>
        let ev := events ++
          [GitEvent.switchBranch workspace.branch { create := false, force := false }]
        match g.switchResult with
        | .error e => (ev, Except.error (DeskError.gitError e))
        | .ok _ => applyPhase ev
      if current_status.has_changes then
        let options : StashOptions :=
          { message := some "desk: auto-stash before switch", include_untracked := true }
        match g.stashResult with
        | .error e => ([GitEvent.statusRead, GitEvent.stashSave options], .error (.gitError e))
        | .ok _ => switchPhase [GitEvent.statusRead, GitEvent.stashSave options]
      else
        switchPhase [GitEvent.statusRead]
    else
      applyPhase [GitEvent.statusRead]

/-- Result variants of `handle_open`, following its printed messages. -/
inductive OpenOutcome where
  | created : OpenOutcome
  | restored : OpenOutcome
  | updated : OpenOutcome
deriving Repr, DecidableEq

/-- `handle_open` from `src/cli/src/cli/commands/workspace.rs` (the
non-interactive path, after alias resolution): load the record named
`name`; when present and `force` is set, run `save_current_state` with
`force = true` (Updated); when present and `force` is clear, restore it and
re-save it with bumped usage counters (Restored); when absent, run
`save_current_state` with `force = false` (Created). The `DeskState`
current-workspace pointer update that follows in the source touches no
workspace record and is not modelled. -/
def handle_open (dir : Store) (g : GitOutcomes) (repoPath : String) (now : Nat)
    (name : String) (description : Option String) (force : Bool) :
    List GitEvent × Except DeskError (Store × OpenOutcome) :=
  match FileWorkspaceStore.load dir name with
  | .error e => ([], .error (.workspaceErr e))
  | .ok (some existing) =>
    if force then
      match save_current_state dir g repoPath now name description true with
      | (events, .ok dir') => (events, .ok (dir', .updated))
      | (events, .error e) => (events, .error e)
    else
      match restore_workspace g existing with
      | (events, .ok _) =>
        let existing' := { existing with metadata := { existing.metadata with
          open_count := existing.metadata.open_count + 1
          last_opened_at := some now } }
        match FileWorkspaceStore.save dir existing' true with
        | .ok dir' => (events, .ok (dir', .restored))
        | .error e => (events, .error (.workspaceErr e))
      | (events, .error e) => (events, .error e)
  | .ok none =>
    match save_current_state dir g repoPath now name description false with
    | (events, .ok dir') => (events, .ok (dir', .created))
    | (events, .error e) => (events, .error e)

/-! ## Store lemmas -/

/-- After writing `w` under name `n`, looking up `n` yields `w`, whether the
write created a fresh file or overwrote an existing one. -/
theorem Store.lookupFile_writeFile_self (dir : Store) (n : String) (w : Workspace) :
    (dir.writeFile n w).lookupFile n = some w := by
  unfold Store.writeFile Store.lookupFile
  rcases h : dir.find? (fun p => p.1 == n) with _ | q
  · simp only [h, Option.isSome_none, Bool.false_eq_true, if_false, List.find?_append, h,
      Option.none_or]
    simp
  · have hq' := List.find?_some h
    have hq : (q.1 == n) = true := by simpa using hq' 
    simp only [h, Option.isSome_some, if_true]
    rw [List.find?_map]
    have hcomp : ((fun p : String × Workspace => p.1 == n) ∘
        (fun p : String × Workspace => if p.1 == n then (n, w) else p)) =
        (fun p : String × Workspace => p.1 == n) := by
      funext p
      by_cases hp : p.1 = n
      · simp [hp]
      · simp [hp]
    rw [hcomp, h]
    have hq2 : q.1 = n := by simpa using hq
    simp [hq2]

/-! ## Claim theorems -/

/-- C10: every `RepoStatus` produced by `Git2Operations.status` has
`is_dirty = true` exactly when the staged or the modified count is
positive; in particular a repository whose only changes are untracked files
(staged and modified counts zero, untracked positive) has `is_dirty =
false` while `has_changes` is `true`. -/
theorem status_is_dirty_iff_staged_or_modified
    (branch commit_sha : String) (entries : List StatusEntry) :
    ((Git2Operations.status branch commit_sha entries).is_dirty = true ↔
      0 < (Git2Operations.status branch commit_sha entries).staged_count ∨
      0 < (Git2Operations.status branch commit_sha entries).modified_count) ∧
    ((Git2Operations.status branch commit_sha entries).staged_count = 0 →
     (Git2Operations.status branch commit_sha entries).modified_count = 0 →
     0 < (Git2Operations.status branch commit_sha entries).untracked_count →
     (Git2Operations.status branch commit_sha entries).is_dirty = false ∧
     (Git2Operations.status branch commit_sha entries).has_changes = true) := by
  constructor
  · simp [Git2Operations.status, Nat.pos_iff_ne_zero]
  · intro h1 h2 h3
    simp only [Git2Operations.status] at h1 h2 h3 ⊢
    constructor
    · simp [h1, h2]
    · simp [RepoStatus.has_changes, h3]

/-- An entry whose only flag is `wt_new`: an untracked file. -/
def untrackedEntry : StatusEntry :=
  { index_new := false, index_modified := false, index_deleted := false,
    index_renamed := false, wt_modified := false, wt_deleted := false,
    wt_renamed := false, wt_new := true }

/-- Witness for C10: one untracked file gives a status that is not dirty
yet has changes. -/
theorem status_is_dirty_iff_staged_or_modified_witness :
    (Git2Operations.status "main" "abc" [untrackedEntry]).is_dirty = false ∧
    (Git2Operations.status "main" "abc" [untrackedEntry]).has_changes = true :=
  (status_is_dirty_iff_staged_or_modified "main" "abc" [untrackedEntry]).2
    (by decide) (by decide) (by decide)

/-- C4: `handle_sync_status` returns the store it was given (no record is
mutated), its report pairs names with the `classify` verdict computed from
the two sides, and `classify` puts a name present on both sides in
`synced`, `localAhead` or `remoteAhead` according to the comparison of the
locally known version (`metadata.remote_version` defaulted to 0) with the
remote version, a local-only name in `localOnly` and a remote-only name in
`remoteOnly`. -/
theorem sync_status_classification (locals : List Workspace)
    (remotes : List RemoteWorkspace) (lw : Workspace) (rw : RemoteWorkspace) :
    (handle_sync_status locals remotes).1 = locals ∧
    (∀ n c, (n, c) ∈ (handle_sync_status locals remotes).2 →
      classify (locals.find? (fun w => w.name == n))
        (remotes.find? (fun r => r.name == n)) = some c) ∧
    (lw.metadata.remote_version.getD 0 = rw.version →
      classify (some lw) (some rw) = some .synced) ∧
    (lw.metadata.remote_version.getD 0 > rw.version →
      classify (some lw) (some rw) = some .localAhead) ∧
    (lw.metadata.remote_version.getD 0 < rw.version →
      classify (some lw) (some rw) = some .remoteAhead) ∧
    classify (some lw) none = some .localOnly ∧
    classify none (some rw) = some .remoteOnly := by
  refine ⟨rfl, ?_, ?_, ?_, ?_, rfl, rfl⟩
  · intro n c hmem
    simp only [handle_sync_status, List.mem_filterMap] at hmem
    obtain ⟨a, _, ha⟩ := hmem
    rcases hcl : classify (locals.find? (fun w => w.name == a))
        (remotes.find? (fun r => r.name == a)) with _ | c'
    · rw [hcl] at ha; simp at ha
    · rw [hcl] at ha
      simp at ha
      obtain ⟨h1, h2⟩ := ha
      subst h1
      subst h2
      exact hcl
  · intro h
    simp [classify, h]
  · intro h
    have hne : ¬ lw.metadata.remote_version.getD 0 = rw.version := by omega
    simp [classify, hne, h]
  · intro h
    have hne : ¬ lw.metadata.remote_version.getD 0 = rw.version := by omega
    have hngt : ¬ lw.metadata.remote_version.getD 0 > rw.version := by omega
    simp [classify, hne, hngt]

/-- A concrete local record already synced at version 5, for witnesses. -/
def wsAlpha : Workspace :=
  { name := "alpha", repo_path := "/repo", branch := "main", commit_sha := "c1",
    stash_name := none, created_at := 1, updated_at := 2, description := none,
    metadata := { WorkspaceMetadata.default with
      remote_id := some "id-1", remote_version := some 5, last_synced_at := some 3 } }

/-- A concrete remote record at version 5 with the same name, for witnesses. -/
def rwAlpha : RemoteWorkspace :=
  { id := "id-1", name := "alpha", description := none,
    state := { branch := "dev", commit_sha := "c2", stash_name := none,
               repo_path := "/repo",
               metadata := { uncommitted_files := some 1, was_dirty := some true } },
    version := 5, last_synced_at := some 4, created_at := 0, updated_at := 9 }

/-- Witness for C4: equal versions classify as synced. -/
theorem sync_status_classification_witness :
    classify (some wsAlpha) (some rwAlpha) = some SyncStatusClass.synced :=
  ((sync_status_classification [] [] wsAlpha rwAlpha).2.2.1) (by decide)

/-- The record `handle_sync_push` persists after a successful update call:
the pushed workspace with the server-assigned id and version and a fresh
`last_synced_at`. -/
def pushUpdatedRecord (ws : Workspace) (updated : RemoteWorkspace) (now : Nat) : Workspace :=
  { ws with metadata := { ws.metadata with
      remote_id := some updated.id
      remote_version := some updated.version
      last_synced_at := some now } }

/-- C2: for a local record whose name matches a remote record, the push
loop body with `localVersion = metadata.remote_version.getD 0` skips and
leaves the store untouched exactly in the conflict case
(`remote.version > localVersion` and not `force`), issuing no API call;
otherwise it issues an update carrying `localVersion` (or `remote.version`
when `force` is set) and, when the server replies, persists the returned
version and a fresh `last_synced_at` into the stored record (on a server
error the update call was still issued and the store is untouched). -/
theorem push_version_check (dir : Store) (ws : Workspace) (r : RemoteWorkspace)
    (force : Bool) (updateResp createResp : Except DeskError RemoteWorkspace) (now : Nat)
    (hvalid : FileWorkspaceStore.validate_name ws.name = .ok ()) :
    (r.version > ws.metadata.remote_version.getD 0 ∧ force = false →
      handle_push_record dir ws (some r) force updateResp createResp now =
        .ok (dir, .skippedConflict, [])) ∧
    (¬(r.version > ws.metadata.remote_version.getD 0 ∧ force = false) →
      (∀ updated, updateResp = .ok updated →
        handle_push_record dir ws (some r) force updateResp createResp now =
          .ok (dir.writeFile ws.name (pushUpdatedRecord ws updated now), .pushedUpdated,
            [.updateCall r.id
              (if force then r.version else ws.metadata.remote_version.getD 0)]) ∧
        (dir.writeFile ws.name (pushUpdatedRecord ws updated now)).lookupFile ws.name =
          some (pushUpdatedRecord ws updated now) ∧
        (pushUpdatedRecord ws updated now).metadata.remote_version =
          some updated.version ∧
        (pushUpdatedRecord ws updated now).metadata.last_synced_at = some now) ∧
      (∀ e, updateResp = .error e →
        handle_push_record dir ws (some r) force updateResp createResp now =
          .ok (dir, .failed,
            [.updateCall r.id
              (if force then r.version else ws.metadata.remote_version.getD 0)]))) := by
  constructor
  · rintro ⟨hgt, hf⟩
    subst hf
    simp [handle_push_record, hgt]
  · intro hns
    have hcond : (decide (r.version > ws.metadata.remote_version.getD 0) && !force) = false := by
      cases force
      · simp only [Bool.not_false, Bool.and_true, decide_eq_false_iff_not]
        intro hgt
        exact hns ⟨hgt, rfl⟩
      · simp
    constructor
    · intro updated hup
      subst hup
      refine ⟨?_, Store.lookupFile_writeFile_self dir ws.name _, rfl, rfl⟩
      simp [handle_push_record, hcond, FileWorkspaceStore.save, hvalid, pushUpdatedRecord]
    · intro e he
      subst he
      simp [handle_push_record, hcond]

/-- A variant of `wsAlpha` whose last synced version is 2, for witnesses. -/
def wsBeta : Workspace :=
  { wsAlpha with metadata := { wsAlpha.metadata with remote_version := some 2 } }

/-- Witness for C2: with `localVersion = 2`, `remote.version = 5` and
`force = false` the push loop body skips, issues no call and leaves the
store unchanged. -/
theorem push_version_check_witness :
    handle_push_record [("alpha", wsBeta)] wsBeta (some rwAlpha) false
      (.error .apiUnavailable) (.error .apiUnavailable) 7 =
      .ok ([("alpha", wsBeta)], .skippedConflict, []) :=
  (push_version_check [("alpha", wsBeta)] wsBeta rwAlpha false
    (.error .apiUnavailable) (.error .apiUnavailable) 7 (by decide)).1 ⟨by decide, rfl⟩

/-- C3: for a remote record with a matching local record, the pull loop
body with `localVersion = metadata.remote_version.getD 0` skips and leaves
the store untouched exactly when `localVersion > remote.version` and not
`force`; in every other case it writes `state_to_workspace remote` — a
record rebuilt wholesale from the remote state, independent of the old
local record — under the remote name, and that record carries
`remote_version = remote.version` and the remote branch, commit and stash. -/
theorem pull_version_check (dir : Store) (remote : RemoteWorkspace) (force : Bool)
    (now : Nat) (lw : Workspace)
    (hvalid : FileWorkspaceStore.validate_name remote.name = .ok ())
    (hlocal : dir.lookupFile remote.name = some lw) :
    (lw.metadata.remote_version.getD 0 > remote.version ∧ force = false →
      handle_pull_record dir remote force now = .ok (dir, .skippedConflict)) ∧
    (¬(lw.metadata.remote_version.getD 0 > remote.version ∧ force = false) →
      handle_pull_record dir remote force now =
        .ok (dir.writeFile remote.name (state_to_workspace remote now), .pulledUpdated) ∧
      (dir.writeFile remote.name (state_to_workspace remote now)).lookupFile remote.name =
        some (state_to_workspace remote now) ∧
      (state_to_workspace remote now).metadata.remote_version = some remote.version ∧
      (state_to_workspace remote now).branch = remote.state.branch ∧
      (state_to_workspace remote now).commit_sha = remote.state.commit_sha ∧
      (state_to_workspace remote now).stash_name = remote.state.stash_name) := by
  constructor
  · rintro ⟨hgt, hf⟩
    subst hf
    have hnlt : ¬ (lw.metadata.remote_version.getD 0 < remote.version) := by omega
    simp [handle_pull_record, FileWorkspaceStore.load, hvalid, hlocal, hnlt, hgt]
  · intro hns
    refine ⟨?_, Store.lookupFile_writeFile_self dir remote.name _, rfl, rfl, rfl, rfl⟩
    cases force
    · have hngt : ¬ (lw.metadata.remote_version.getD 0 > remote.version) := by
        intro hgt
        exact hns ⟨hgt, rfl⟩
      simp [handle_pull_record, FileWorkspaceStore.load, hvalid, hlocal, hngt,
        FileWorkspaceStore.save, state_to_workspace, Workspace.new]
    · simp [handle_pull_record, FileWorkspaceStore.load, hvalid, hlocal,
        FileWorkspaceStore.save, state_to_workspace, Workspace.new]

/-- A remote record at version 3, older than the local sync point 5. -/
def rwGamma : RemoteWorkspace := { rwAlpha with version := 3 }

/-- Witness for C3: `localVersion = 5 > remote.version = 3` without `force`
skips and leaves the store unchanged. -/
theorem pull_version_check_witness :
    handle_pull_record [("alpha", wsAlpha)] rwGamma false 7 =
      .ok ([("alpha", wsAlpha)], .skippedConflict) :=
  (pull_version_check [("alpha", wsAlpha)] rwGamma false 7 wsAlpha
    (by decide) (by decide)).1 ⟨by decide, rfl⟩

/-- C8: for a record with a valid name, `save` fails with `AlreadyExists`
when the destination exists and `force` is false, and otherwise succeeds
and a subsequent `load` of the same name returns the saved record. -/
theorem save_load_roundtrip (dir : Store) (ws : Workspace) (force : Bool)
    (hvalid : FileWorkspaceStore.validate_name ws.name = .ok ()) :
    ((dir.lookupFile ws.name).isSome = true ∧ force = false →
      FileWorkspaceStore.save dir ws force = .error (.alreadyExists ws.name)) ∧
    (¬((dir.lookupFile ws.name).isSome = true ∧ force = false) →
      FileWorkspaceStore.save dir ws force = .ok (dir.writeFile ws.name ws) ∧
      FileWorkspaceStore.load (dir.writeFile ws.name ws) ws.name = .ok (some ws)) := by
  constructor
  · rintro ⟨hsome, hf⟩
    subst hf
    simp [FileWorkspaceStore.save, hvalid, hsome]
  · intro hns
    have hcond : ((dir.lookupFile ws.name).isSome && !force) = false := by
      cases force
      · simp only [Bool.not_false, Bool.and_true]
        cases hs : (dir.lookupFile ws.name).isSome
        · rfl
        · exact absurd ⟨hs, rfl⟩ hns
      · simp
    constructor
    · simp [FileWorkspaceStore.save, hvalid, hcond]
    · simp [FileWorkspaceStore.load, hvalid, Store.lookupFile_writeFile_self]

/-- Witness for C8: saving into an empty store and loading returns the
record. -/
theorem save_load_roundtrip_witness :
    FileWorkspaceStore.save [] wsAlpha false =
      .ok (Store.writeFile [] wsAlpha.name wsAlpha) ∧
    FileWorkspaceStore.load (Store.writeFile [] wsAlpha.name wsAlpha) wsAlpha.name =
      .ok (some wsAlpha) :=
  (save_load_roundtrip [] wsAlpha false (by decide)).2 (by decide)

/-- C9 (amended): name validation rejects with `InvalidName` the empty
name, any name containing a slash, a backslash or the substring `".."`,
and any name whose UTF-8 encoding exceeds 100 bytes (Rust `str::len`
counts bytes, not characters); it accepts every non-empty name without
those substrings whose UTF-8 encoding is at most 100 bytes; and each of
`load`, `delete`, `exists` and `save` returns exactly the validation error
before touching any file when the name is invalid. -/
theorem validate_name_spec (name : String) (dir : Store) (ws : Workspace) (force : Bool) :
    (FileWorkspaceStore.validate_name "" =
      .error (.invalidName "" "name cannot be empty")) ∧
    (name.toList.contains '/' = true ∨ name.toList.contains '\\' = true ∨
        containsSub ['.', '.'] name.toList = true ∨ utf8Len name > 100 →
      ∃ reason, FileWorkspaceStore.validate_name name =
        .error (.invalidName name reason)) ∧
    (name.toList ≠ [] → name.toList.contains '/' = false →
      name.toList.contains '\\' = false →
      containsSub ['.', '.'] name.toList = false → utf8Len name ≤ 100 →
      FileWorkspaceStore.validate_name name = .ok ()) ∧
    (∀ e, FileWorkspaceStore.validate_name name = .error e →
      FileWorkspaceStore.load dir name = .error e ∧
      FileWorkspaceStore.delete dir name = .error e ∧
      FileWorkspaceStore.existsFile dir name = .error e ∧
      (ws.name = name → FileWorkspaceStore.save dir ws force = .error e)) := by
  refine ⟨by decide, ?_, ?_, ?_⟩
  · intro hbad
    have hbad' : (('/' ∈ name.data ∨ '\\' ∈ name.data) ∨
        containsSub ['.', '.'] name.data = true) ∨ utf8Len name > 100 := by
      rcases hbad with h | h | h | h
      · exact .inl (.inl (.inl (by simpa using h)))
      · exact .inl (.inl (.inr (by simpa using h)))
      · exact .inl (.inr (by simpa using h))
      · exact .inr h
    by_cases hd : name.data = []
    · exact ⟨"name cannot be empty", by simp [FileWorkspaceStore.validate_name, hd]⟩
    · by_cases hmem : ('/' ∈ name.data ∨ '\\' ∈ name.data) ∨
          containsSub ['.', '.'] name.data = true
      · exact ⟨"name cannot contain path separators",
          by simp [FileWorkspaceStore.validate_name, hd, hmem]⟩
      · have hlen : utf8Len name > 100 := by tauto
        exact ⟨"name too long (max 100 characters)",
          by simp [FileWorkspaceStore.validate_name, hd, hmem, hlen]⟩
  · intro hne h1 h2 h3 hlen
    have hd : ¬ name.data = [] := by simpa using hne
    have hnmem : ¬ (('/' ∈ name.data ∨ '\\' ∈ name.data) ∨
        containsSub ['.', '.'] name.data = true) := by
      simp only [not_or]
      refine ⟨⟨?_, ?_⟩, ?_⟩
      · simpa using h1
      · simpa using h2
      · simpa using h3
    have hnlen : ¬ utf8Len name > 100 := by omega
    simp [FileWorkspaceStore.validate_name, hd, hnmem, hnlen]
  · intro e he
    refine ⟨?_, ?_, ?_, ?_⟩
    · simp [FileWorkspaceStore.load, he]
    · simp [FileWorkspaceStore.delete, he]
    · simp [FileWorkspaceStore.existsFile, he]
    · intro hn
      simp [FileWorkspaceStore.save, hn, he]

/-- A 100-character name of two-byte characters: 200 UTF-8 bytes. -/
def hundredWideName : String := String.mk (List.replicate 100 'é')

/-- Counterexample for C9 as stated: a 100-character name containing no
slash, backslash or `".."` is nevertheless rejected, because the length
limit is enforced on UTF-8 bytes and this name occupies 200 bytes. -/
theorem validate_name_length_counterexample :
    hundredWideName.toList.length = 100 ∧
    hundredWideName.toList.contains '/' = false ∧
    hundredWideName.toList.contains '\\' = false ∧
    containsSub ['.', '.'] hundredWideName.toList = false ∧
    FileWorkspaceStore.validate_name hundredWideName =
      .error (.invalidName hundredWideName "name too long (max 100 characters)") := by
  refine ⟨by decide, by decide, by decide, by decide, by decide⟩

/-- A 100-character ASCII name: 100 UTF-8 bytes. -/
def hundredAsciiName : String := String.mk (List.replicate 100 'a')

/-- Witness for C9 (amended): the rejection of `"a/b"` and the acceptance
of a 100-character ASCII name, both through the main theorem. -/
theorem validate_name_spec_witness :
    (∃ reason, FileWorkspaceStore.validate_name "a/b" =
      .error (.invalidName "a/b" reason)) ∧
    FileWorkspaceStore.validate_name hundredAsciiName = .ok () :=
  ⟨(validate_name_spec "a/b" [] wsAlpha false).2.1 (by decide),
   (validate_name_spec hundredAsciiName [] wsAlpha false).2.2.1
     (by decide) (by decide) (by decide) (by decide) (by decide)⟩

/-- Test for stash-creation events in a git call trace. -/
def GitEvent.isStashSave : GitEvent → Bool
  | .stashSave _ => true
  | _ => false

/-- C6: capturing a brand-new workspace name over a tree with `N > 0`
changed files stashes them and records `stashName = "desk: workspace " ++
name`, `wasDirty = true` and `uncommittedFileCount = N` (one stash-save
call is issued); capturing over a clean tree records `stashName = none`
and `wasDirty = false` and issues no stash-save call. -/
theorem capture_dirty_and_clean (dir : Store) (g : GitOutcomes) (repoPath : String)
    (now : Nat) (name : String) (description : Option String)
    (status : RepoStatus) (oid : String)
    (hstatus : g.statusResult = .ok status)
    (hstash : g.stashResult = .ok oid)
    (hvalid : FileWorkspaceStore.validate_name name = .ok ())
    (hnew : dir.lookupFile name = none)
    (hsmall : status.total_changes < 2 ^ 32) :
    (0 < status.total_changes →
      ∃ ws, (save_current_state dir g repoPath now name description false).2 =
          .ok (dir.writeFile name ws) ∧
        (dir.writeFile name ws).lookupFile name = some ws ∧
        ws.stash_name = some ("desk: workspace " ++ name) ∧
        ws.metadata.was_dirty = some true ∧
        ws.metadata.uncommitted_files = some status.total_changes ∧
        ((save_current_state dir g repoPath now name description false).1.filter
          GitEvent.isStashSave).length = 1) ∧
    (status.total_changes = 0 →
      ∃ ws, (save_current_state dir g repoPath now name description false).2 =
          .ok (dir.writeFile name ws) ∧
        (dir.writeFile name ws).lookupFile name = some ws ∧
        ws.stash_name = none ∧
        ws.metadata.was_dirty = some false ∧
        ((save_current_state dir g repoPath now name description false).1.filter
          GitEvent.isStashSave).length = 0) := by
  constructor
  · intro hpos
    have hdirty : status.has_changes = true := by
      simp only [RepoStatus.has_changes]
      simp only [RepoStatus.total_changes] at hpos
      simp only [Bool.or_eq_true, decide_eq_true_eq]
      omega
    have h32 : (2 : Nat) ^ 32 = 4294967296 := by norm_num
    have hmod : status.total_changes % 4294967296 = status.total_changes :=
      Nat.mod_eq_of_lt (h32 ▸ hsmall)
    refine ⟨{ name := name, repo_path := repoPath, branch := status.branch,
              commit_sha := status.commit_sha,
              stash_name := some ("desk: workspace " ++ name),
              created_at := now, updated_at := now, description := description,
              metadata := { uncommitted_files := some status.total_changes,
                            was_dirty := some true, remote_id := none,
                            remote_version := none, last_synced_at := none,
                            tags := [], open_count := 0, last_opened_at := none } },
            ?_, Store.lookupFile_writeFile_self dir name _, rfl, rfl, rfl, ?_⟩
    · simp [save_current_state, hstatus, hdirty, hstash, FileWorkspaceStore.save,
        Workspace.new, WorkspaceMetadata.default, hvalid, hnew, hmod]
    · simp [save_current_state, hstatus, hdirty, hstash, FileWorkspaceStore.save,
        Workspace.new, WorkspaceMetadata.default, hvalid, hnew, hmod,
        GitEvent.isStashSave]
  · intro hzero
    have hclean : status.has_changes = false := by
      simp only [RepoStatus.has_changes]
      simp only [RepoStatus.total_changes] at hzero
      simp only [Bool.or_eq_false_iff, decide_eq_false_iff_not]
      omega
    refine ⟨{ name := name, repo_path := repoPath, branch := status.branch,
              commit_sha := status.commit_sha, stash_name := none,
              created_at := now, updated_at := now, description := description,
              metadata := { uncommitted_files := some (status.total_changes % 2 ^ 32),
                            was_dirty := some false, remote_id := none,
                            remote_version := none, last_synced_at := none,
                            tags := [], open_count := 0, last_opened_at := none } },
            ?_, Store.lookupFile_writeFile_self dir name _, rfl, rfl, ?_⟩
    · simp [save_current_state, hstatus, hclean, FileWorkspaceStore.save,
        Workspace.new, WorkspaceMetadata.default, hvalid, hnew]
    · simp [save_current_state, hstatus, hclean, FileWorkspaceStore.save,
        Workspace.new, WorkspaceMetadata.default, hvalid, hnew, GitEvent.isStashSave]

/-- A dirty status with one staged, one modified and one untracked file. -/
def statusDirty : RepoStatus :=
  { branch := "main", commit_sha := "c9", is_dirty := true,
    staged_count := 1, modified_count := 1, untracked_count := 1 }

/-- A git oracle reporting `statusDirty` and succeeding on every call. -/
def gitDirty : GitOutcomes :=
  { statusResult := .ok statusDirty, stashResult := .ok "oid1",
    switchResult := .ok (), stashes := [], applyAtIndex := .ok () }

/-- Witness for C6: capturing the new name over the 3-file dirty tree. -/
theorem capture_dirty_and_clean_witness :
    ∃ ws, (save_current_state [] gitDirty "/r" 4 "feat" none false).2 =
        .ok (Store.writeFile [] "feat" ws) ∧
      (Store.writeFile [] "feat" ws).lookupFile "feat" = some ws ∧
      ws.stash_name = some ("desk: workspace " ++ "feat") ∧
      ws.metadata.was_dirty = some true ∧
      ws.metadata.uncommitted_files = some statusDirty.total_changes ∧
      ((save_current_state [] gitDirty "/r" 4 "feat" none false).1.filter
        GitEvent.isStashSave).length = 1 :=
  (capture_dirty_and_clean [] gitDirty "/r" 4 "feat" none statusDirty "oid1"
    rfl rfl (by decide) rfl (by decide)).1 (by decide)

/-- The trailing stash-apply call of a restore, when the record carries a
stash name. -/
def stashApplyTail (workspace : Workspace) : List GitEvent :=
  match workspace.stash_name with
  | some n => [GitEvent.stashApply n]
  | none => []

/-- C5: a restore first reads the repository status; when the record's
branch equals the current branch it issues no stash-save and no
branch-switch call; when the branch differs and the tree has changes it
issues exactly one protective stash-save tagged
`"desk: auto-stash before switch"` immediately before the switch to the
record's branch with a non-force, non-create checkout. -/
theorem restore_branch_switch (g : GitOutcomes) (workspace : Workspace)
    (status : RepoStatus) (oid : String)
    (hstatus : g.statusResult = .ok status)
    (hstash : g.stashResult = .ok oid)
    (hswitch : g.switchResult = .ok ()) :
    ((restore_workspace g workspace).1.head? = some GitEvent.statusRead) ∧
    (status.branch = workspace.branch →
      (restore_workspace g workspace).1 =
        GitEvent.statusRead :: stashApplyTail workspace ∧
      ∀ e ∈ (restore_workspace g workspace).1,
        e.isStashSave = false ∧ ∀ b o, e ≠ GitEvent.switchBranch b o) ∧
    (status.branch ≠ workspace.branch → status.has_changes = true →
      (restore_workspace g workspace).1 =
        GitEvent.statusRead ::
        GitEvent.stashSave { message := some "desk: auto-stash before switch",
                             include_untracked := true } ::
        GitEvent.switchBranch workspace.branch { create := false, force := false } ::
        stashApplyTail workspace ∧
      ((restore_workspace g workspace).1.filter GitEvent.isStashSave).length = 1) := by
  refine ⟨?_, ?_, ?_⟩
  · by_cases hbr : status.branch = workspace.branch
    · rcases hsn : workspace.stash_name with _ | sn <;>
        simp [restore_workspace, hstatus, hbr, hsn]
    · have hb : (status.branch != workspace.branch) = true := by simp [hbr]
      by_cases hch : status.has_changes = true
      · rcases hsn : workspace.stash_name with _ | sn <;>
          simp [restore_workspace, hstatus, hb, hch, hstash, hswitch, hsn]
      · have hch' : status.has_changes = false := by simpa using hch
        rcases hsn : workspace.stash_name with _ | sn <;>
          simp [restore_workspace, hstatus, hb, hch', hstash, hswitch, hsn]
  · intro hbr
    have htr : (restore_workspace g workspace).1 =
        GitEvent.statusRead :: stashApplyTail workspace := by
      rcases hsn : workspace.stash_name with _ | sn <;>
        simp [restore_workspace, hstatus, hbr, hsn, stashApplyTail]
    refine ⟨htr, ?_⟩
    intro e he
    rw [htr] at he
    rcases hsn : workspace.stash_name with _ | sn <;>
        simp [stashApplyTail, hsn] at he
    · subst he
      exact ⟨rfl, fun b o => by simp⟩
    · rcases he with he | he <;> subst he
      · exact ⟨rfl, fun b o => by simp⟩
      · exact ⟨rfl, fun b o => by simp⟩
  · intro hbr hch
    have hb : (status.branch != workspace.branch) = true := by simp [hbr]
    constructor
    · rcases hsn : workspace.stash_name with _ | sn <;>
        simp [restore_workspace, hstatus, hb, hch, hstash, hswitch, hsn, stashApplyTail]
    · rcases hsn : workspace.stash_name with _ | sn <;>
        simp [restore_workspace, hstatus, hb, hch, hstash, hswitch, hsn,
          GitEvent.isStashSave]

/-- C7: when the record carries a stash name, restore issues the
stash-apply call and succeeds for every oracle outcome of that call — in
particular when the stash cannot be found or applied — provided the
preceding status, stash and switch calls succeeded. -/
theorem restore_stash_apply_best_effort (g : GitOutcomes) (workspace : Workspace)
    (status : RepoStatus) (oid sn : String)
    (hstatus : g.statusResult = .ok status)
    (hstash : g.stashResult = .ok oid)
    (hswitch : g.switchResult = .ok ())
    (hsn : workspace.stash_name = some sn) :
    (restore_workspace g workspace).2 = .ok () ∧
    GitEvent.stashApply sn ∈ (restore_workspace g workspace).1 := by
  by_cases hbr : (status.branch != workspace.branch) = true
  · by_cases hch : status.has_changes = true
    · constructor <;> simp [restore_workspace, hstatus, hbr, hch, hstash, hswitch, hsn]
    · have hch' : status.has_changes = false := by simpa using hch
      constructor <;> simp [restore_workspace, hstatus, hbr, hch', hstash, hswitch, hsn]
  · have hbr' : (status.branch != workspace.branch) = false := by simpa using hbr
    constructor <;> simp [restore_workspace, hstatus, hbr', hsn]

/-- A record on branch `dev` with no stash, restored from branch `main`. -/
def wsDev : Workspace := { wsAlpha with branch := "dev" }

/-- Witness for C5: restoring `wsDev` from a dirty `main` tree stashes once
with the protective tag and then switches without force. -/
theorem restore_branch_switch_witness :
    (restore_workspace gitDirty wsDev).1 =
      GitEvent.statusRead ::
      GitEvent.stashSave { message := some "desk: auto-stash before switch",
                           include_untracked := true } ::
      GitEvent.switchBranch wsDev.branch { create := false, force := false } ::
      stashApplyTail wsDev ∧
    ((restore_workspace gitDirty wsDev).1.filter GitEvent.isStashSave).length = 1 :=
  (restore_branch_switch gitDirty wsDev statusDirty "oid1" rfl rfl rfl).2.2
    (by decide) (by decide)

/-- A record carrying a stash name whose stash is gone from the stack. -/
def wsStash : Workspace := { wsAlpha with stash_name := some "desk: workspace alpha" }

/-- Witness for C7: the stash lookup fails (`gitDirty.stashes` is empty),
yet restore issues the apply call and returns success. -/
theorem restore_stash_apply_best_effort_witness :
    Git2Operations.stash_apply gitDirty "desk: workspace alpha" =
      .error (.stashNotFound "desk: workspace alpha") ∧
    (restore_workspace gitDirty wsStash).2 = .ok () ∧
    GitEvent.stashApply "desk: workspace alpha" ∈ (restore_workspace gitDirty wsStash).1 :=
  ⟨by decide,
   (restore_stash_apply_best_effort gitDirty wsStash statusDirty "oid1"
     "desk: workspace alpha" rfl rfl rfl rfl).1,
   (restore_stash_apply_best_effort gitDirty wsStash statusDirty "oid1"
     "desk: workspace alpha" rfl rfl rfl rfl).2⟩

/-- C1 (amended): force-opening an existing name captures the current git
state and saves a freshly built record in its place: branch, commit and
stash fields come from the capture, but the sync metadata is reset —
`remote_id`, `remote_version` and `last_synced_at` are `none` in the
stored record, not preserved from the previous one. -/
theorem force_open_overwrites_record (dir : Store) (g : GitOutcomes) (repoPath : String)
    (now : Nat) (name : String) (description : Option String)
    (existing : Workspace) (status : RepoStatus) (oid : String)
    (hload : dir.lookupFile name = some existing)
    (hvalid : FileWorkspaceStore.validate_name name = .ok ())
    (hstatus : g.statusResult = .ok status)
    (hstash : g.stashResult = .ok oid) :
    ∃ dir' ws',
      (handle_open dir g repoPath now name description true).2 = .ok (dir', .updated) ∧
      dir'.lookupFile name = some ws' ∧
      ws'.branch = status.branch ∧
      ws'.commit_sha = status.commit_sha ∧
      ws'.stash_name = (if status.has_changes then
        some ("desk: workspace " ++ name) else none) ∧
      ws'.metadata.remote_id = none ∧
      ws'.metadata.remote_version = none ∧
      ws'.metadata.last_synced_at = none := by
  by_cases hch : status.has_changes = true
  · refine ⟨_,
      { name := name, repo_path := repoPath, branch := status.branch,
        commit_sha := status.commit_sha,
        stash_name := some ("desk: workspace " ++ name),
        created_at := now, updated_at := now, description := description,
        metadata := { uncommitted_files := some (status.total_changes % 2 ^ 32),
                      was_dirty := some true, remote_id := none,
                      remote_version := none, last_synced_at := none,
                      tags := [], open_count := 0, last_opened_at := none } },
      ?_, Store.lookupFile_writeFile_self dir name _, rfl, rfl, by simp [hch],
      rfl, rfl, rfl⟩
    simp [handle_open, FileWorkspaceStore.load, hvalid, hload, save_current_state,
      hstatus, hch, hstash, FileWorkspaceStore.save, Workspace.new,
      WorkspaceMetadata.default]
  · have hch' : status.has_changes = false := by simpa using hch
    refine ⟨_,
      { name := name, repo_path := repoPath, branch := status.branch,
        commit_sha := status.commit_sha, stash_name := none,
        created_at := now, updated_at := now, description := description,
        metadata := { uncommitted_files := some (status.total_changes % 2 ^ 32),
                      was_dirty := some false, remote_id := none,
                      remote_version := none, last_synced_at := none,
                      tags := [], open_count := 0, last_opened_at := none } },
      ?_, Store.lookupFile_writeFile_self dir name _, rfl, rfl, by simp [hch'],
      rfl, rfl, rfl⟩
    simp [handle_open, FileWorkspaceStore.load, hvalid, hload, save_current_state,
      hstatus, hch', hstash, FileWorkspaceStore.save, Workspace.new,
      WorkspaceMetadata.default]

/-- Counterexample for C1 as stated: the record `wsAlpha` is synced at
version 5 with remote id and timestamp; after a force open its stored
sync metadata is wiped to `none` on all three fields, not preserved. -/
theorem force_open_sync_metadata_counterexample :
    wsAlpha.metadata.remote_id = some "id-1" ∧
    wsAlpha.metadata.remote_version = some 5 ∧
    wsAlpha.metadata.last_synced_at = some 3 ∧
    ((handle_open [("alpha", wsAlpha)] gitDirty "/repo" 9 "alpha" none true).2.map
      (fun out => (out.1.lookupFile "alpha").map (fun w =>
        (w.metadata.remote_id, w.metadata.remote_version, w.metadata.last_synced_at)))) =
      .ok (some (none, none, none)) :=
  ⟨rfl, rfl, rfl, by decide⟩

/-- Witness for C1 (amended): concrete force open of `wsAlpha`. -/
theorem force_open_overwrites_record_witness :
    ∃ dir' ws',
      (handle_open [("alpha", wsAlpha)] gitDirty "/repo" 9 "alpha" none true).2 =
        .ok (dir', .updated) ∧
      dir'.lookupFile "alpha" = some ws' ∧
      ws'.branch = statusDirty.branch ∧
      ws'.commit_sha = statusDirty.commit_sha ∧
      ws'.stash_name = (if statusDirty.has_changes then
        some ("desk: workspace " ++ "alpha") else none) ∧
      ws'.metadata.remote_id = none ∧
      ws'.metadata.remote_version = none ∧
      ws'.metadata.last_synced_at = none :=
  force_open_overwrites_record [("alpha", wsAlpha)] gitDirty "/repo" 9 "alpha" none
    wsAlpha statusDirty "oid1" (by decide) (by decide) rfl rfl
